import Mathlib

/-!
Verification of the multi-candidate DNS resolution core in
`src/resolver/src/lookup.rs` (the `Lookup` result set, the free `lookup`
cache call, and the `InnerLookupFuture` state machine with its
`lookup` constructor, `next_lookup`, `error` and `poll`).

Modelling conventions:
* record data (`RData`) and domain names (`Name`) are external types of the
  `trust_dns` crate, so they appear here as type parameters `ρ` and `ν`;
* the cache layer `DnsLru` is not part of this source file; the outcome of
  polling an in-flight cache-backed lookup is supplied by an oracle
  `CacheEnv ν ρ` mapping a (name, record type) query to the poll result;
* `futures::Async` is `Async`, and Rust `Poll<Lookup, io::Error>`
  (= `Result<Async<Lookup>, io::Error>`) is `Except IoError (Async (Lookup ρ))`;
* the side effects of one `poll` call — `task::current().notify()` and the
  invocation of the free `lookup` function for a freshly popped candidate —
  are recorded in the `notified` and `started` fields of `PollOutcome`;
* `Vec::pop` removes the LAST element, which on a Lean `List` in the same
  order is `getLast?` plus `dropLast`;
* the `.expect("can not lookup IPs for no names")` panic in the constructor
  is modelled by returning `Option.none`.
-/

namespace TrustDnsResolver

/-- DNS record types (external `trust_dns::rr::RecordType`); only the
constructors this file touches are listed, `NULL` being the one used by
`InnerLookupFuture::error`. -/
inductive RecordType where
  | A
  | AAAA
  | CNAME
  | NULL
deriving DecidableEq, Repr

/-- Kinds of `std::io::Error`; `other` is `io::ErrorKind::Other`. -/
inductive ErrorKind where
  | other
  | notFound
  | connectionRefused
deriving DecidableEq, Repr

/-- Model of `std::io::Error`: a kind plus the formatted payload string,
as built by `io::Error::new(kind, msg)`. -/
structure IoError where
  kind : ErrorKind
  msg : String
deriving DecidableEq, Repr

/-- Model of `futures::Async`: a poll either yields a value or is pending. -/
inductive Async (α : Type) where
  | ready (a : α)
  | notReady
deriving DecidableEq, Repr

/-- The Result Set: `struct Lookup { rdatas: Arc<Vec<RData>> }`. The `Arc`
sharing is by-value persistence in Lean, so immutability is automatic. -/
structure Lookup (ρ : Type) where
  rdatas : List ρ
deriving DecidableEq, Repr

variable {ν ρ : Type}

/-- `Lookup::new(rdatas)`. -/
def Lookup.new (rdatas : List ρ) : Lookup ρ :=
  Lookup.mk rdatas

/-- `Lookup::is_empty`. -/
def Lookup.is_empty (l : Lookup ρ) : Bool :=
  l.rdatas.isEmpty

/-- `Lookup::len`. -/
def Lookup.len (l : Lookup ρ) : Nat :=
  l.rdatas.length

/-- `Lookup::append`: allocate a fresh vector of capacity `len + other.len`,
extend with the receiver's rdatas then the argument's, and wrap it. -/
def Lookup.append (l : Lookup ρ) (other : Lookup ρ) : Lookup ρ :=
  Lookup.new (l.rdatas ++ other.rdatas)

/-- The `Box<Future<Item = Lookup, Error = io::Error>>` held in
`InnerLookupFuture.future`: either an in-flight cache-backed lookup for a
query (produced by the free `lookup` function) or the immediately failing
`future::err(e)` installed by `InnerLookupFuture::error`. -/
inductive SubFuture (ν ρ : Type) where
  | query (name : ν) (rt : RecordType)
  | errF (e : IoError)
deriving DecidableEq, Repr

/-- Oracle standing in for the external `DnsLru` cache layer: the outcome of
polling the in-flight cache-backed lookup for a given name and record type. -/
abbrev CacheEnv (ν ρ : Type) :=
  ν → RecordType → Except IoError (Async (Lookup ρ))

/-- The free function `lookup(name, record_type, client_cache)`:
`client_cache.lookup(Query::query(name, record_type))`, i.e. it starts the
cache-backed lookup for that query and returns the in-flight future. -/
def lookup (name : ν) (record_type : RecordType) : SubFuture ν ρ :=
  SubFuture.query name record_type

/-- Polling the inner future under a cache oracle: a query future yields
whatever the cache-backed lookup yields; `future::err(e)` yields `Err(e)`. -/
def SubFuture.poll (env : CacheEnv ν ρ) : SubFuture ν ρ → Except IoError (Async (Lookup ρ))
  | SubFuture.query n rt => env n rt
  | SubFuture.errF e => Except.error e

/-- `struct InnerLookupFuture`: remaining candidate names, the record type
and the currently polled sub-future. The `client_cache: DnsLru<C>` handle is
external state represented by the `CacheEnv` oracle at poll time. -/
structure InnerLookupFuture (ν ρ : Type) where
  names : List ν
  record_type : RecordType
  future : SubFuture ν ρ
deriving DecidableEq, Repr

/-- Decidable equality for `Except`, needed to evaluate poll outcomes on
concrete inputs. -/
instance {α β : Type} [DecidableEq α] [DecidableEq β] : DecidableEq (Except α β)
  | Except.ok a, Except.ok b =>
      decidable_of_iff (a = b) ⟨fun h => by rw [h], fun h => by cases h; rfl⟩
  | Except.ok _, Except.error _ => isFalse fun h => Except.noConfusion h
  | Except.error _, Except.ok _ => isFalse fun h => Except.noConfusion h
  | Except.error a, Except.error b =>
      decidable_of_iff (a = b) ⟨fun h => by rw [h], fun h => by cases h; rfl⟩

/-- Observable outcome of one `poll` call: the returned
`Poll<Lookup, io::Error>`, the successor state, whether
`task::current().notify()` ran, and which candidate (if any) had a fresh
cache-backed lookup issued via the free `lookup` function during the call. -/
structure PollOutcome (ν ρ : Type) where
  result : Except IoError (Async (Lookup ρ))
  state : InnerLookupFuture ν ρ
  notified : Bool
  started : Option ν
deriving DecidableEq, Repr

/-- `InnerLookupFuture::lookup(names, record_type, client_cache)`: pop the
last name (panicking — here `none` — when the list is empty), start its
cache-backed lookup eagerly, and retain the remaining names. -/
def InnerLookupFuture.lookup (names : List ν) (record_type : RecordType) :
    Option (InnerLookupFuture ν ρ) :=
  match names.getLast? with
  | none => none
  | some name =>
      some (InnerLookupFuture.mk names.dropLast record_type
        (TrustDnsResolver.lookup name record_type))

/-- `InnerLookupFuture::next_lookup(otherwise)`: pop the next candidate; if
one exists, start its cache-backed lookup, replace `self.future`, notify the
current task and return `NotReady`; otherwise return the `otherwise` value.
(`otherwise` is an `FnOnce` thunk in Rust; it is pure here, so passing it by
value is equivalent.) -/
def InnerLookupFuture.next_lookup (s : InnerLookupFuture ν ρ)
    (otherwise : Except IoError (Async (Lookup ρ))) : PollOutcome ν ρ :=
  match s.names.getLast? with
  | some name =>
      let query := TrustDnsResolver.lookup name s.record_type
      PollOutcome.mk (Except.ok Async.notReady)
        (InnerLookupFuture.mk s.names.dropLast s.record_type query)
        true (some name)
  | none =>
      PollOutcome.mk otherwise s false none

/-- `<InnerLookupFuture as Future>::poll`: poll the inner future; on a ready
non-empty `Lookup` return it, on a ready empty `Lookup` fall through to
`next_lookup` with the empty lookup as fallback, propagate `NotReady`, and on
an error fall through to `next_lookup` with that error as fallback. -/
def InnerLookupFuture.poll (s : InnerLookupFuture ν ρ) (env : CacheEnv ν ρ) :
    PollOutcome ν ρ :=
  match s.future.poll env with
  | Except.ok (Async.ready lookup_ip) =>
      if lookup_ip.rdatas.length == 0 then
        s.next_lookup (Except.ok (Async.ready lookup_ip))
      else
        PollOutcome.mk (Except.ok (Async.ready lookup_ip)) s false none
  | Except.ok Async.notReady =>
      PollOutcome.mk (Except.ok Async.notReady) s false none
  | Except.error e =>
      s.next_lookup (Except.error e)

/-- `InnerLookupFuture::error(client_cache, error)`: an already-terminal
instance with no candidate names, record type `NULL`, and inner future
`future::err(io::Error::new(io::ErrorKind::Other, format!("{}", error)))`.
The `E: Error` bound supplies `Display`; `display` stands for that
formatting. -/
def InnerLookupFuture.error {ε : Type} (display : ε → String) (error : ε) :
    InnerLookupFuture ν ρ :=
  InnerLookupFuture.mk [] RecordType.NULL
    (SubFuture.errF (IoError.mk ErrorKind.other (display error)))

/-- Drive the state machine for at most `fuel` polls under a cache oracle,
returning the list of candidate names whose cache-backed lookups were started
during these polls (in order) and, when a poll returned a terminal
`Ready`/`Err`, that terminal result. -/
def runLookups (env : CacheEnv ν ρ) :
    Nat → InnerLookupFuture ν ρ → List ν × Option (Except IoError (Lookup ρ))
  | 0, _ => ([], none)
  | fuel + 1, s =>
      let o := s.poll env
      match o.result with
      | Except.ok (Async.ready l) => (o.started.toList, some (Except.ok l))
      | Except.error e => (o.started.toList, some (Except.error e))
      | Except.ok Async.notReady =>
          let r := runLookups env fuel o.state
          (o.started.toList ++ r.1, r.2)

/-- Case analysis of one `poll` call: either nothing is popped — the state is
returned unchanged, no lookup is started, no notify runs, and the returned
poll value is exactly the inner future's poll value — or the candidate list
was non-empty and its last element was popped, its cache-backed lookup
started, the task notified, and `NotReady` returned. -/
lemma poll_cases (env : CacheEnv ν ρ) (s : InnerLookupFuture ν ρ) :
    ((s.poll env).state = s ∧ (s.poll env).started = none ∧
      (s.poll env).notified = false ∧ (s.poll env).result = s.future.poll env)
    ∨ (∃ nn t, s.names = t ++ [nn] ∧
        s.poll env = PollOutcome.mk (Except.ok Async.notReady)
          (InnerLookupFuture.mk t s.record_type (SubFuture.query nn s.record_type))
          true (some nn)) := by
  unfold InnerLookupFuture.poll
  cases hp : s.future.poll env with
  | error e =>
      unfold InnerLookupFuture.next_lookup
      cases hl : s.names.getLast? with
      | none => left; simp
      | some nn =>
          right
          obtain ⟨t, ht⟩ := List.getLast?_eq_some_iff.mp hl
          refine ⟨nn, t, ht, ?_⟩
          simp [ht, List.dropLast_concat, TrustDnsResolver.lookup]
  | ok a =>
      cases a with
      | notReady => left; simp
      | ready l =>
          by_cases hz : l.rdatas.length == 0
          · unfold InnerLookupFuture.next_lookup
            cases hl : s.names.getLast? with
            | none => left; simp [hz]
            | some nn =>
                right
                obtain ⟨t, ht⟩ := List.getLast?_eq_some_iff.mp hl
                refine ⟨nn, t, ht, ?_⟩
                simp [hz, ht, List.dropLast_concat, TrustDnsResolver.lookup]
          · left; simp [hz]

/-- One-step unfolding of `runLookups` on positive fuel. -/
lemma runLookups_succ (env : CacheEnv ν ρ) (fuel : Nat) (s : InnerLookupFuture ν ρ) :
    runLookups env (fuel + 1) s =
      match (s.poll env).result with
      | Except.ok (Async.ready l) => ((s.poll env).started.toList, some (Except.ok l))
      | Except.error e => ((s.poll env).started.toList, some (Except.error e))
      | Except.ok Async.notReady =>
          ((s.poll env).started.toList ++ (runLookups env fuel (s.poll env).state).1,
            (runLookups env fuel (s.poll env).state).2) := by
  rfl

/-- Polling a state whose candidate list is `t ++ [x]` and whose in-flight
lookup completes empty pops `x`, starts its lookup, notifies and returns
`NotReady`. -/
lemma poll_empty_pop (env : CacheEnv ν ρ) (t : List ν) (x n : ν) (rt : RecordType)
    (hemp : env n rt = Except.ok (Async.ready (Lookup.mk ([] : List ρ)))) :
    (InnerLookupFuture.mk (t ++ [x]) rt (SubFuture.query n rt)).poll env
      = PollOutcome.mk (Except.ok Async.notReady)
          (InnerLookupFuture.mk t rt (SubFuture.query x rt)) true (some x) := by
  simp [InnerLookupFuture.poll, SubFuture.poll, hemp, InnerLookupFuture.next_lookup,
    List.dropLast_concat, TrustDnsResolver.lookup]

/-- Polling a state whose candidate list is `t ++ [x]` and whose in-flight
lookup fails pops `x`, starts its lookup, notifies and returns `NotReady`. -/
lemma poll_error_pop (env : CacheEnv ν ρ) (t : List ν) (x n : ν) (rt : RecordType)
    (e : IoError) (henv : env n rt = Except.error e) :
    (InnerLookupFuture.mk (t ++ [x]) rt (SubFuture.query n rt)).poll env
      = PollOutcome.mk (Except.ok Async.notReady)
          (InnerLookupFuture.mk t rt (SubFuture.query x rt)) true (some x) := by
  simp [InnerLookupFuture.poll, SubFuture.poll, henv, InnerLookupFuture.next_lookup,
    List.dropLast_concat, TrustDnsResolver.lookup]

/-- Under a cache oracle answering every query with an empty Result Set, a
state currently querying `n` with `l` candidates left runs (in `l.length + 1`
polls) to the empty-success terminal, starting one lookup per remaining
candidate in back-to-front order. -/
lemma run_empty (env : CacheEnv ν ρ)
    (hemp : ∀ n t, env n t = Except.ok (Async.ready (Lookup.mk ([] : List ρ)))) :
    ∀ (l : List ν) (rt : RecordType) (n : ν),
      runLookups env (l.length + 1) (InnerLookupFuture.mk l rt (SubFuture.query n rt))
        = (l.reverse, some (Except.ok (Lookup.mk []))) := by
  intro l
  induction l using List.reverseRecOn with
  | nil =>
      intro rt n
      rw [runLookups_succ]
      simp [InnerLookupFuture.poll, SubFuture.poll, hemp, InnerLookupFuture.next_lookup]
  | append_singleton xs x ih =>
      intro rt n
      have hlen : (xs ++ [x]).length + 1 = xs.length + 1 + 1 := by simp
      rw [hlen, runLookups_succ, poll_empty_pop env xs x n rt (hemp n rt)]
      simp [ih rt x, List.reverse_concat']

/-- Under a cache oracle failing every query with the error `err n t`, a
state currently querying `n` with `l` candidates left runs (in `l.length + 1`
polls) to a failure carrying the last-attempted candidate's error verbatim,
starting one lookup per remaining candidate in back-to-front order. -/
lemma run_error (env : CacheEnv ν ρ) (err : ν → RecordType → IoError)
    (henv : ∀ n t, env n t = Except.error (err n t)) :
    ∀ (l : List ν) (rt : RecordType) (n : ν),
      runLookups env (l.length + 1) (InnerLookupFuture.mk l rt (SubFuture.query n rt))
        = (l.reverse, some (Except.error (err (l.headD n) rt))) := by
  intro l
  induction l using List.reverseRecOn with
  | nil =>
      intro rt n
      rw [runLookups_succ]
      simp [InnerLookupFuture.poll, SubFuture.poll, henv, InnerLookupFuture.next_lookup]
  | append_singleton xs x ih =>
      intro rt n
      have hlen : (xs ++ [x]).length + 1 = xs.length + 1 + 1 := by simp
      rw [hlen, runLookups_succ, poll_error_pop env xs x n rt (err n rt) (henv n rt)]
      rw [show (xs ++ [x]).headD n = xs.headD x by cases xs <;> simp]
      simp [ih rt x, List.reverse_concat']

/-- Under any cache oracle, the candidate names whose lookups are started
while polling the state machine form a prefix of the reversed remaining
candidate list: back-to-front order, nothing skipped, nothing repeated. -/
lemma run_prefix (env : CacheEnv ν ρ) :
    ∀ (fuel : Nat) (s : InnerLookupFuture ν ρ),
      (runLookups env fuel s).1 <+: s.names.reverse := by
  intro fuel
  induction fuel with
  | zero => intro s; simp [runLookups]
  | succ f ih =>
      intro s
      rw [runLookups_succ]
      rcases poll_cases env s with ⟨hst, hstart, _, _⟩ | ⟨nn, t, hnames, hpoll⟩
      · cases hr : (s.poll env).result with
        | ok a =>
            cases a with
            | ready l => simp [hstart]
            | notReady =>
                simp only [hstart, hst, Option.toList_none, List.nil_append]
                exact ih s
        | error e => simp [hstart]
      · rw [hpoll]
        simp only [hnames, List.reverse_append, List.reverse_cons, List.reverse_nil,
          List.nil_append, List.singleton_append, Option.toList_some]
        exact (List.prefix_cons_inj nn).mpr (by simpa using ih (InnerLookupFuture.mk t
          s.record_type (SubFuture.query nn s.record_type)))

/-- Under a cache oracle that never leaves a query pending, a state with `k`
remaining candidates reaches a terminal result within `k + 1` polls. -/
lemma run_terminates (env : CacheEnv ν ρ)
    (hc : ∀ n t, env n t ≠ Except.ok Async.notReady) :
    ∀ (k : Nat) (s : InnerLookupFuture ν ρ), s.names.length < k →
      (runLookups env (s.names.length + 1) s).2.isSome := by
  intro k
  induction k with
  | zero => intro s h; omega
  | succ k ih =>
      intro s hs
      rw [runLookups_succ]
      rcases poll_cases env s with ⟨_, _, _, hres⟩ | ⟨nn, t, hnames, hpoll⟩
      · have hnp : s.future.poll env ≠ Except.ok Async.notReady := by
          cases hf : s.future with
          | query n rt => simpa [SubFuture.poll] using hc n rt
          | errF e => simp [SubFuture.poll]
        cases hr : (s.poll env).result with
        | ok a =>
            cases a with
            | ready l => simp
            | notReady => exact absurd (hres.symm.trans hr) hnp
        | error e => simp
      · rw [hpoll]
        have hlen : s.names.length = t.length + 1 := by simp [hnames]
        have ht : (runLookups env t.length
            (InnerLookupFuture.mk t s.record_type (SubFuture.query nn s.record_type))).2
            = (runLookups env (t.length + 1 - 1)
            (InnerLookupFuture.mk t s.record_type (SubFuture.query nn s.record_type))).2 := by
          norm_num
        simp only [hlen]
        simpa using ih (InnerLookupFuture.mk t s.record_type
          (SubFuture.query nn s.record_type)) (by simp; omega)

/-- C1: when the current candidate's cache-backed lookup completes with a
non-empty Result Set, the next poll returns terminal success with exactly
that Result Set, the state (remaining candidates included) is unchanged, no
candidate is popped, no lookup is started and no notify runs — regardless of
how many candidates remain. -/
theorem c1_nonempty_result_immediate_success (env : CacheEnv ν ρ)
    (s : InnerLookupFuture ν ρ) (l : Lookup ρ)
    (hready : s.future.poll env = Except.ok (Async.ready l))
    (hne : l.rdatas ≠ []) :
    s.poll env = PollOutcome.mk (Except.ok (Async.ready l)) s false none := by
  unfold InnerLookupFuture.poll
  rw [hready]
  simp [List.length_eq_zero, hne]

/-- Witness for C1 at a one-remaining-candidate state whose lookup yields
the single record `3`. -/
theorem c1_witness :
    (InnerLookupFuture.mk ([5] : List Nat) RecordType.A
        (SubFuture.query 7 RecordType.A)).poll
        (fun _ _ => Except.ok (Async.ready (Lookup.mk ([3] : List Nat))))
      = PollOutcome.mk (Except.ok (Async.ready (Lookup.mk [3])))
          (InnerLookupFuture.mk [5] RecordType.A (SubFuture.query 7 RecordType.A))
          false none :=
  c1_nonempty_result_immediate_success
    (fun _ _ => Except.ok (Async.ready (Lookup.mk ([3] : List Nat))))
    (InnerLookupFuture.mk [5] RecordType.A (SubFuture.query 7 RecordType.A))
    (Lookup.mk [3]) rfl (by decide)

/-- C2: when every candidate's lookup completes with an empty Result Set,
the resolution terminates successfully with the empty Result Set (not an
error), and exactly one lookup is started per candidate, in back-to-front
order of the stored list (the constructor's pop plus one pop per advance). -/
theorem c2_all_empty_is_empty_success (env : CacheEnv ν ρ) (names : List ν)
    (rt : RecordType) (n0 : ν)
    (h0 : names.getLast? = some n0)
    (hemp : ∀ n t, env n t = Except.ok (Async.ready (Lookup.mk ([] : List ρ)))) :
    (InnerLookupFuture.lookup names rt : Option (InnerLookupFuture ν ρ))
      = some (InnerLookupFuture.mk names.dropLast rt (SubFuture.query n0 rt))
    ∧ n0 :: (runLookups env names.length
        (InnerLookupFuture.mk names.dropLast rt (SubFuture.query n0 rt))).1
      = names.reverse
    ∧ (runLookups env names.length
        (InnerLookupFuture.mk names.dropLast rt (SubFuture.query n0 rt))).2
      = some (Except.ok (Lookup.mk [])) := by
  obtain ⟨t, ht⟩ := List.getLast?_eq_some_iff.mp h0
  subst ht
  have hlen : (t ++ [n0]).length = t.length + 1 := by simp
  refine ⟨?_, ?_, ?_⟩
  · simp [InnerLookupFuture.lookup, List.getLast?_concat, List.dropLast_concat,
      TrustDnsResolver.lookup]
  · rw [List.dropLast_concat, hlen, run_empty env hemp t rt n0]
    simp [List.reverse_concat']
  · rw [List.dropLast_concat, hlen, run_empty env hemp t rt n0]

/-- Witness for C2 on the two-candidate list `[1, 2]` under an
all-empty-answering cache oracle. -/
theorem c2_witness :
    (InnerLookupFuture.lookup [1, 2] RecordType.A
        : Option (InnerLookupFuture Nat Nat))
      = some (InnerLookupFuture.mk [1] RecordType.A (SubFuture.query 2 RecordType.A))
    ∧ 2 :: (runLookups (fun _ _ => Except.ok (Async.ready (Lookup.mk ([] : List Nat)))) 2
        (InnerLookupFuture.mk [1] RecordType.A (SubFuture.query 2 RecordType.A))).1
      = [2, 1]
    ∧ (runLookups (fun _ _ => Except.ok (Async.ready (Lookup.mk ([] : List Nat)))) 2
        (InnerLookupFuture.mk [1] RecordType.A (SubFuture.query 2 RecordType.A))).2
      = some (Except.ok (Lookup.mk [])) :=
  c2_all_empty_is_empty_success
    (fun _ _ => Except.ok (Async.ready (Lookup.mk ([] : List Nat))))
    [1, 2] RecordType.A 2 rfl (fun _ _ => rfl)

/-- C3: when every candidate's lookup fails, the resolution fails with
exactly the error produced by the last-attempted candidate (the head of the
stored list, since candidates are consumed back-to-front), surfaced verbatim
and not aggregated, with one lookup started per candidate in back-to-front
order; and, as the final conjunct, an error on a candidate with candidates
remaining does not terminate the poll but advances to the next candidate. -/
theorem c3_all_error_surfaces_last_error (env : CacheEnv ν ρ) (names : List ν)
    (rt : RecordType) (n0 : ν) (err : ν → RecordType → IoError)
    (h0 : names.getLast? = some n0)
    (henv : ∀ n t, env n t = Except.error (err n t)) :
    (InnerLookupFuture.lookup names rt : Option (InnerLookupFuture ν ρ))
      = some (InnerLookupFuture.mk names.dropLast rt (SubFuture.query n0 rt))
    ∧ n0 :: (runLookups env names.length
        (InnerLookupFuture.mk names.dropLast rt (SubFuture.query n0 rt))).1
      = names.reverse
    ∧ (runLookups env names.length
        (InnerLookupFuture.mk names.dropLast rt (SubFuture.query n0 rt))).2
      = some (Except.error (err (names.headD n0) rt))
    ∧ (∀ (env2 : CacheEnv ν ρ) (s : InnerLookupFuture ν ρ) (e : IoError)
        (t : List ν) (nn : ν), s.names = t ++ [nn] →
        s.future.poll env2 = Except.error e →
        s.poll env2 = PollOutcome.mk (Except.ok Async.notReady)
          (InnerLookupFuture.mk t s.record_type (SubFuture.query nn s.record_type))
          true (some nn)) := by
  obtain ⟨t, ht⟩ := List.getLast?_eq_some_iff.mp h0
  subst ht
  have hlen : (t ++ [n0]).length = t.length + 1 := by simp
  have hhead : (t ++ [n0]).headD n0 = t.headD n0 := by cases t <;> simp
  refine ⟨?_, ?_, ?_, ?_⟩
  · simp [InnerLookupFuture.lookup, List.getLast?_concat, List.dropLast_concat,
      TrustDnsResolver.lookup]
  · rw [List.dropLast_concat, hlen, run_error env err henv t rt n0]
    simp [List.reverse_concat']
  · rw [List.dropLast_concat, hlen, run_error env err henv t rt n0, hhead]
  · intro env2 s e t2 nn hnames hp
    unfold InnerLookupFuture.poll
    rw [hp]
    simp [InnerLookupFuture.next_lookup, hnames, List.getLast?_concat,
      List.dropLast_concat, TrustDnsResolver.lookup]

/-- Witness for C3 on the list `[1, 2]` under an all-failing cache oracle:
the surfaced error is candidate 1's (last attempted), and a one-step error
advance is exhibited. -/
theorem c3_witness :
    (InnerLookupFuture.lookup [1, 2] RecordType.A
        : Option (InnerLookupFuture Nat Nat))
      = some (InnerLookupFuture.mk [1] RecordType.A (SubFuture.query 2 RecordType.A))
    ∧ 2 :: (runLookups
        ((fun n _ => Except.error (IoError.mk ErrorKind.notFound (toString n)))
          : CacheEnv Nat Nat) 2
        (InnerLookupFuture.mk [1] RecordType.A (SubFuture.query 2 RecordType.A))).1
      = [2, 1]
    ∧ (runLookups
        ((fun n _ => Except.error (IoError.mk ErrorKind.notFound (toString n)))
          : CacheEnv Nat Nat) 2
        (InnerLookupFuture.mk [1] RecordType.A (SubFuture.query 2 RecordType.A))).2
      = some (Except.error (IoError.mk ErrorKind.notFound (toString (1 : Nat))))
    ∧ (InnerLookupFuture.mk ([3, 4] : List Nat) RecordType.A
        (SubFuture.query 4 RecordType.A)).poll
        ((fun n _ => Except.error (IoError.mk ErrorKind.notFound (toString n)))
          : CacheEnv Nat Nat)
      = PollOutcome.mk (Except.ok Async.notReady)
          (InnerLookupFuture.mk [3] RecordType.A (SubFuture.query 4 RecordType.A))
          true (some 4) := by
  obtain ⟨h1, h2, h3, h4⟩ := c3_all_error_surfaces_last_error
    (((fun n _ => Except.error (IoError.mk ErrorKind.notFound (toString n)))
      : CacheEnv Nat Nat))
    [1, 2] RecordType.A 2 (fun n _ => IoError.mk ErrorKind.notFound (toString n))
    rfl (fun _ _ => rfl)
  exact ⟨h1, h2, h3,
    h4 (((fun n _ => Except.error (IoError.mk ErrorKind.notFound (toString n)))
        : CacheEnv Nat Nat))
      (InnerLookupFuture.mk [3, 4] RecordType.A (SubFuture.query 4 RecordType.A))
      (IoError.mk ErrorKind.notFound (toString (4 : Nat))) [3] 4 rfl rfl⟩

/-- C4: starting a resolution with an empty candidate list hits the
`.expect("can not lookup IPs for no names")` panic (modelled as `none`, an
abort of the call rather than a recoverable error value), while for every
non-empty candidate list the constructor returns a live future, so the panic
branch is unreachable. -/
theorem c4_empty_candidate_list_aborts (rt : RecordType) :
    (InnerLookupFuture.lookup ([] : List ν) rt : Option (InnerLookupFuture ν ρ)) = none
    ∧ ∀ names : List ν, names ≠ [] →
        (InnerLookupFuture.lookup names rt : Option (InnerLookupFuture ν ρ)).isSome
          = true := by
  constructor
  · simp [InnerLookupFuture.lookup]
  · intro names hne
    obtain ⟨n0, hn0⟩ := Option.isSome_iff_exists.mp
      ((List.getLast?_isSome (l := names)).mpr hne)
    simp [InnerLookupFuture.lookup, hn0]

/-- Witness for C4: the empty list aborts; the singleton list `[0]`
constructs successfully. -/
theorem c4_witness :
    (InnerLookupFuture.lookup ([] : List Nat) RecordType.A
        : Option (InnerLookupFuture Nat Nat)) = none
    ∧ (InnerLookupFuture.lookup ([0] : List Nat) RecordType.A
        : Option (InnerLookupFuture Nat Nat)).isSome = true :=
  ⟨(c4_empty_candidate_list_aborts RecordType.A).1,
    (c4_empty_candidate_list_aborts RecordType.A).2 [0] (by decide)⟩

/-- C5: under any cache oracle and any fuel, the constructor pops and
attempts the stored list's last element first, and the full sequence of
candidates whose lookups are started (constructor's first pop followed by
the pops of each advance) is a prefix of the reversed stored list: strict
back-to-front order, no candidate attempted twice, none skipped. -/
theorem c5_back_to_front_attempt_order (env : CacheEnv ν ρ) (names : List ν)
    (rt : RecordType) (n0 : ν) (fuel : Nat)
    (h0 : names.getLast? = some n0) :
    (InnerLookupFuture.lookup names rt : Option (InnerLookupFuture ν ρ))
      = some (InnerLookupFuture.mk names.dropLast rt (SubFuture.query n0 rt))
    ∧ (n0 :: (runLookups env fuel
        (InnerLookupFuture.mk names.dropLast rt (SubFuture.query n0 rt))).1)
      <+: names.reverse := by
  obtain ⟨t, ht⟩ := List.getLast?_eq_some_iff.mp h0
  subst ht
  constructor
  · simp [InnerLookupFuture.lookup, List.getLast?_concat, List.dropLast_concat,
      TrustDnsResolver.lookup]
  · rw [List.dropLast_concat, List.reverse_concat']
    have hp := run_prefix env fuel (InnerLookupFuture.mk t rt (SubFuture.query n0 rt))
    exact (List.prefix_cons_inj n0).mpr (by simpa using hp)

/-- Witness for C5 on `[1, 2, 3]` with fuel 1 under an all-empty oracle:
the attempted sequence so far is a prefix of `[3, 2, 1]`. -/
theorem c5_witness :
    (InnerLookupFuture.lookup [1, 2, 3] RecordType.A
        : Option (InnerLookupFuture Nat Nat))
      = some (InnerLookupFuture.mk [1, 2] RecordType.A (SubFuture.query 3 RecordType.A))
    ∧ (3 :: (runLookups (fun _ _ => Except.ok (Async.ready (Lookup.mk ([] : List Nat)))) 1
        (InnerLookupFuture.mk [1, 2] RecordType.A (SubFuture.query 3 RecordType.A))).1)
      <+: [3, 2, 1] :=
  c5_back_to_front_attempt_order
    (fun _ _ => Except.ok (Async.ready (Lookup.mk ([] : List Nat))))
    [1, 2, 3] RecordType.A 3 1 rfl

/-- C6: `append` concatenates the record sequences (length adds, order is
preserved, no deduplication), returns a fresh Result Set — the arguments,
being values, are untouched — and is associative on content. -/
theorem c6_append_concatenates_and_associates (a b c : Lookup ρ) :
    (a.append b).rdatas = a.rdatas ++ b.rdatas
    ∧ (a.append b).len = a.len + b.len
    ∧ (a.append b).append c = a.append (b.append c) := by
  refine ⟨rfl, ?_, ?_⟩
  · simp [Lookup.append, Lookup.new, Lookup.len]
  · simp [Lookup.append, Lookup.new]

/-- C7: the error-constructor shortcut builds an already-terminal future:
its candidate list is empty and its first poll (under any cache oracle)
yields `Failed` with the io error derived from the given error, without
popping a candidate, starting a lookup, or notifying. -/
theorem c7_error_constructor_already_terminal {ε : Type} (display : ε → String)
    (e : ε) (env : CacheEnv ν ρ) :
    (InnerLookupFuture.error display e : InnerLookupFuture ν ρ).names = []
    ∧ (InnerLookupFuture.error display e : InnerLookupFuture ν ρ).poll env
      = PollOutcome.mk (Except.error (IoError.mk ErrorKind.other (display e)))
          (InnerLookupFuture.error display e) false none := by
  constructor
  · rfl
  · simp [InnerLookupFuture.poll, SubFuture.poll, InnerLookupFuture.error,
      InnerLookupFuture.next_lookup]

/-- C8: when the current candidate's lookup completes empty, or fails, and
at least one candidate remains, the poll does not recurse into the next
candidate's lookup within the same call: it returns `NotReady` (not the next
candidate's outcome) after `task::current().notify()`, leaving the freshly
installed, not-yet-polled lookup for the next candidate to be driven on the
executor's next turn. -/
theorem c8_advance_reschedules_instead_of_recursing (env : CacheEnv ν ρ)
    (s : InnerLookupFuture ν ρ) (t : List ν) (nn : ν)
    (hnames : s.names = t ++ [nn])
    (hdone : (∃ l, s.future.poll env = Except.ok (Async.ready l) ∧ l.rdatas = [])
      ∨ (∃ e, s.future.poll env = Except.error e)) :
    s.poll env = PollOutcome.mk (Except.ok Async.notReady)
        (InnerLookupFuture.mk t s.record_type (SubFuture.query nn s.record_type))
        true (some nn) := by
  unfold InnerLookupFuture.poll
  rcases hdone with ⟨l, hp, hl⟩ | ⟨e, hp⟩ <;> rw [hp]
  · simp [hl, InnerLookupFuture.next_lookup, hnames, List.getLast?_concat,
      List.dropLast_concat, TrustDnsResolver.lookup]
  · simp [InnerLookupFuture.next_lookup, hnames, List.getLast?_concat,
      List.dropLast_concat, TrustDnsResolver.lookup]

/-- Witness for C8 at a two-candidate state whose current lookup completes
empty: the poll notifies and returns `NotReady` with candidate 8 pending. -/
theorem c8_witness :
    (InnerLookupFuture.mk ([8] : List Nat) RecordType.A
        (SubFuture.query 9 RecordType.A)).poll
        (fun _ _ => Except.ok (Async.ready (Lookup.mk ([] : List Nat))))
      = PollOutcome.mk (Except.ok Async.notReady)
          (InnerLookupFuture.mk [] RecordType.A (SubFuture.query 8 RecordType.A))
          true (some 8) :=
  c8_advance_reschedules_instead_of_recursing
    (fun _ _ => Except.ok (Async.ready (Lookup.mk ([] : List Nat))))
    (InnerLookupFuture.mk [8] RecordType.A (SubFuture.query 9 RecordType.A))
    [] 8 rfl (Or.inl ⟨Lookup.mk [], rfl, rfl⟩)

/-- C9: the error constructor erases the upstream error's type and
structure: the stored failure is an io error of kind `Other` whose payload
is only the Display-formatted string, so any two upstream errors (even of
different types) with the same Display text produce identical terminal
futures. -/
theorem c9_error_constructor_erases_structure {ε₁ ε₂ : Type}
    (d₁ : ε₁ → String) (d₂ : ε₂ → String) (e₁ : ε₁) (e₂ : ε₂)
    (h : d₁ e₁ = d₂ e₂) :
    (InnerLookupFuture.error d₁ e₁ : InnerLookupFuture ν ρ).future
      = SubFuture.errF (IoError.mk ErrorKind.other (d₁ e₁))
    ∧ (InnerLookupFuture.error d₁ e₁ : InnerLookupFuture ν ρ)
      = InnerLookupFuture.error d₂ e₂ := by
  exact ⟨rfl, by simp [InnerLookupFuture.error, h]⟩

/-- Witness for C9: the distinct upstream errors `(1, "boom")` and
`(2, "boom")` with equal Display text yield identical terminal futures. -/
theorem c9_witness :
    ((1, "boom") : Nat × String) ≠ (2, "boom")
    ∧ (InnerLookupFuture.error (fun p : Nat × String => p.2) (1, "boom")
        : InnerLookupFuture Nat Nat)
      = InnerLookupFuture.error (fun p : Nat × String => p.2) (2, "boom") :=
  ⟨by simp,
    (c9_error_constructor_erases_structure (fun p : Nat × String => p.2)
      (fun p : Nat × String => p.2) (1, "boom") (2, "boom") rfl).2⟩

/-- C10: every poll pops at most one candidate (the new list is the old one
or the old one minus its last element, so the count never increases) and
never changes the record type; a poll whose inner lookup is still pending
changes nothing and returns `NotReady`; and under a cache oracle that never
leaves a lookup pending, a state with `k` remaining candidates reaches a
terminal result within `k + 1` polls (hence a resolution started with `n`
candidates terminates after at most `n` completed lookups). -/
theorem c10_progress_and_termination (env : CacheEnv ν ρ)
    (s : InnerLookupFuture ν ρ) :
    ((s.poll env).state.names = s.names
      ∨ (s.poll env).state.names = s.names.dropLast)
    ∧ (s.poll env).state.record_type = s.record_type
    ∧ (∀ env2 : CacheEnv ν ρ, s.future.poll env2 = Except.ok Async.notReady →
        (s.poll env2).state = s ∧ (s.poll env2).result = Except.ok Async.notReady)
    ∧ ((∀ n t, env n t ≠ Except.ok Async.notReady) →
        (runLookups env (s.names.length + 1) s).2.isSome = true) := by
  refine ⟨?_, ?_, ?_, ?_⟩
  · rcases poll_cases env s with ⟨hst, _, _, _⟩ | ⟨nn, t, hnames, hpoll⟩
    · left; rw [hst]
    · right; rw [hpoll, hnames]
      simp [List.dropLast_concat]
  · rcases poll_cases env s with ⟨hst, _, _, _⟩ | ⟨nn, t, hnames, hpoll⟩
    · rw [hst]
    · rw [hpoll]
  · intro env2 hp
    unfold InnerLookupFuture.poll
    rw [hp]
    exact ⟨rfl, rfl⟩
  · intro hc
    exact run_terminates env hc (s.names.length + 1) s (by omega)

/-- Witness for C10: a one-candidate resolution under an always-answering
oracle terminates within two polls, and the same state under an
always-pending oracle is returned unchanged. -/
theorem c10_witness :
    (runLookups (fun _ _ => Except.ok (Async.ready (Lookup.mk ([1] : List Nat)))) 2
        (InnerLookupFuture.mk ([0] : List Nat) RecordType.A
          (SubFuture.query 0 RecordType.A))).2.isSome = true
    ∧ ((InnerLookupFuture.mk ([0] : List Nat) RecordType.A
        (SubFuture.query 0 RecordType.A)).poll
        ((fun _ _ => Except.ok Async.notReady) : CacheEnv Nat Nat)).state
      = InnerLookupFuture.mk [0] RecordType.A (SubFuture.query 0 RecordType.A) := by
  obtain ⟨h1, h2, h3, h4⟩ := c10_progress_and_termination
    (fun _ _ => Except.ok (Async.ready (Lookup.mk ([1] : List Nat))))
    (InnerLookupFuture.mk ([0] : List Nat) RecordType.A (SubFuture.query 0 RecordType.A))
  exact ⟨h4 (by intro n t; decide),
    (h3 ((fun _ _ => Except.ok Async.notReady) : CacheEnv Nat Nat) rfl).1⟩

end TrustDnsResolver
